import Mathlib

/-!
Verification of rune/libcontainer/specconv: `Example` and `ToRootless`

A shallow embedding of `src/rune/libcontainer/specconv/example.go`.

Modelling conventions.

* Go structs of `runtime-spec/specs-go` become Lean structures carrying the
  fields that `example.go` reads or writes. Pointer fields (`*specs.Root`,
  `*specs.Process`, `*specs.Linux`, `*specs.LinuxResources`,
  `*specs.LinuxCapabilities`) become `Option`, with `none` for `nil`.
* Go slices become `List`; a `nil` slice and an empty slice are both `[]`.
  `append(xs, x)` is `xs ++ [x]`, and a `for _, x := range xs` loop that
  threads an accumulator is a `List.foldl` over `xs`.
* Go strings become `String`; `specs.LinuxNamespaceType` is a string type.
* A struct field named `Type` is written `Typ`, `Type` being a Lean keyword.
* `uint32(n)` of a Go `int` is reduction modulo `2^32`.
* `ToRootless` mutates `*spec` in place. The embedding threads the
  specification as a value and reports, next to the final value of `*spec`,
  whether the call returned or panicked on a nil `spec.Linux`.
* The two ambient inputs, `cgroups.IsCgroup2UnifiedMode()` and
  `os.Geteuid()` / `os.Getegid()`, are explicit arguments, as is the library
  constant `specs.Version`.
-/

namespace Specconv

/-! ## Data model (`specs-go`) -/

/-- The string type `specs.LinuxNamespaceType`. -/
abbrev LinuxNamespaceType := String

/-- Constant `specs.PIDNamespace`. -/
def PIDNamespace : LinuxNamespaceType := "pid"
/-- Constant `specs.NetworkNamespace`. -/
def NetworkNamespace : LinuxNamespaceType := "network"
/-- Constant `specs.MountNamespace`. -/
def MountNamespace : LinuxNamespaceType := "mount"
/-- Constant `specs.IPCNamespace`. -/
def IPCNamespace : LinuxNamespaceType := "ipc"
/-- Constant `specs.UTSNamespace`. -/
def UTSNamespace : LinuxNamespaceType := "uts"
/-- Constant `specs.UserNamespace`. -/
def UserNamespace : LinuxNamespaceType := "user"
/-- Constant `specs.CgroupNamespace`. -/
def CgroupNamespace : LinuxNamespaceType := "cgroup"

/-- Struct `specs.LinuxNamespace`. -/
structure LinuxNamespace where
  Typ : LinuxNamespaceType := ""
  Path : String := ""
deriving DecidableEq, Repr

/-- Struct `specs.LinuxIDMapping`; the three fields are `uint32`. -/
structure LinuxIDMapping where
  ContainerID : Nat := 0
  HostID : Nat := 0
  Size : Nat := 0
deriving DecidableEq, Repr

/-- Struct `specs.Mount`. -/
structure Mount where
  Destination : String := ""
  Typ : String := ""
  Source : String := ""
  Options : List String := []
deriving DecidableEq, Repr

/-- Struct `specs.Root`. -/
structure Root where
  Path : String := ""
  Readonly : Bool := false
deriving DecidableEq, Repr

/-- Struct `specs.User`. -/
structure User where
  UID : Nat := 0
  GID : Nat := 0
  AdditionalGids : List Nat := []
  Username : String := ""
deriving DecidableEq, Repr

/-- Struct `specs.LinuxCapabilities`. -/
structure LinuxCapabilities where
  Bounding : List String := []
  Effective : List String := []
  Inheritable : List String := []
  Permitted : List String := []
  Ambient : List String := []
deriving DecidableEq, Repr

/-- Struct `specs.POSIXRlimit`; `Hard` and `Soft` are `uint64`. -/
structure POSIXRlimit where
  Typ : String := ""
  Hard : Nat := 0
  Soft : Nat := 0
deriving DecidableEq, Repr

/-- Struct `specs.Process`. -/
structure Process where
  Terminal : Bool := false
  User : User := {}
  Args : List String := []
  Env : List String := []
  Cwd : String := ""
  Capabilities : Option LinuxCapabilities := none
  Rlimits : List POSIXRlimit := []
  NoNewPrivileges : Bool := false
deriving DecidableEq, Repr

/-- Struct `specs.LinuxDeviceCgroup`. -/
structure LinuxDeviceCgroup where
  Allow : Bool := false
  Typ : String := ""
  Major : Option Int := none
  Minor : Option Int := none
  Access : String := ""
deriving DecidableEq, Repr

/-- Struct `specs.LinuxResources`. -/
structure LinuxResources where
  Devices : List LinuxDeviceCgroup := []
deriving DecidableEq, Repr

/-- Struct `specs.Linux`. -/
structure Linux where
  UIDMappings : List LinuxIDMapping := []
  GIDMappings : List LinuxIDMapping := []
  Resources : Option LinuxResources := none
  Namespaces : List LinuxNamespace := []
  MaskedPaths : List String := []
  ReadonlyPaths : List String := []
deriving DecidableEq, Repr

/-- Struct `specs.Spec`. The `map[string]string` of annotations is an
association list. -/
structure Spec where
  Version : String := ""
  Process : Option Process := none
  Root : Option Root := none
  Hostname : String := ""
  Mounts : List Mount := []
  Annotations : List (String × String) := []
  Linux : Option Linux := none
deriving DecidableEq, Repr

/-- Go `strings.HasPrefix(s, pre)`: `s` begins with `pre`. Go compares bytes;
on valid UTF-8, which is what `String` holds, one string is a byte prefix of
another exactly when it is a character prefix. -/
def HasPrefix (s pre : String) : Bool :=
  pre.data.isPrefixOf s.data

/-- Go `uint32(n)` for an `int` value `n`. -/
def uint32 (n : Int) : Nat :=
  (n % 4294967296).toNat

/-! ## `Example` -/

/-- Go `Example`, with `specs.Version` and the result of
`cgroups.IsCgroup2UnifiedMode()` as arguments. -/
def Example (version : String) (isCgroup2UnifiedMode : Bool) : Spec :=
  let linux : Linux := {
    MaskedPaths := [
      "/proc/acpi",
      "/proc/asound",
      "/proc/kcore",
      "/proc/keys",
      "/proc/latency_stats",
      "/proc/timer_list",
      "/proc/timer_stats",
      "/proc/sched_debug",
      "/sys/firmware",
      "/proc/scsi"],
    ReadonlyPaths := [
      "/proc/bus",
      "/proc/fs",
      "/proc/irq",
      "/proc/sys",
      "/proc/sysrq-trigger"],
    Resources := some {
      Devices := [{ Allow := false, Access := "rwm" }] },
    Namespaces := [
      { Typ := PIDNamespace },
      { Typ := IPCNamespace },
      { Typ := UTSNamespace },
      { Typ := MountNamespace }] }
  let spec : Spec := {
    Version := version,
    Root := some { Path := "rootfs" },
    Process := some {
      Terminal := true,
      User := {},
      Args := ["sh"],
      Env := [
        "PATH=/usr/local/sbin:/usr/local/bin:/usr/sbin:/usr/bin:/sbin:/bin",
        "TERM=xterm"],
      Cwd := "/var/run/rune",
      NoNewPrivileges := true,
      Capabilities := some {
        Bounding := ["CAP_AUDIT_WRITE", "CAP_KILL", "CAP_NET_BIND_SERVICE"],
        Permitted := ["CAP_AUDIT_WRITE", "CAP_KILL", "CAP_NET_BIND_SERVICE"],
        Inheritable := ["CAP_AUDIT_WRITE", "CAP_KILL", "CAP_NET_BIND_SERVICE"],
        Ambient := ["CAP_AUDIT_WRITE", "CAP_KILL", "CAP_NET_BIND_SERVICE"],
        Effective := ["CAP_AUDIT_WRITE", "CAP_KILL", "CAP_NET_BIND_SERVICE"] },
      Rlimits := [{ Typ := "RLIMIT_NOFILE", Hard := 1024, Soft := 1024 }] },
    Hostname := "rune",
    Mounts := [
      { Destination := "/proc", Typ := "proc", Source := "proc", Options := [] },
      { Destination := "/dev", Typ := "tmpfs", Source := "tmpfs",
        Options := ["nosuid", "strictatime", "mode=755", "size=65536k"] },
      { Destination := "/dev/pts", Typ := "devpts", Source := "devpts",
        Options := ["nosuid", "noexec", "newinstance", "ptmxmode=0666", "mode=0620", "gid=5"] },
      { Destination := "/dev/shm", Typ := "tmpfs", Source := "shm",
        Options := ["nosuid", "noexec", "nodev", "mode=1777", "size=65536k"] },
      { Destination := "/dev/mqueue", Typ := "mqueue", Source := "mqueue",
        Options := ["nosuid", "noexec", "nodev"] },
      { Destination := "/sys", Typ := "sysfs", Source := "sysfs",
        Options := ["nosuid", "noexec", "nodev", "ro"] },
      { Destination := "/sys/fs/cgroup", Typ := "cgroup", Source := "cgroup",
        Options := ["nosuid", "noexec", "nodev", "relatime", "ro"] },
      { Destination := "/var/run/aesmd", Typ := "bind", Source := "/var/run/aesmd",
        Options := ["rbind", "rprivate"] }],
    Linux := some linux,
    Annotations := [
      ("enclave.type", "intelSgx"),
      ("enclave.runtime.path", "/var/run/rune/liberpal-skeleton-v1.so"),
      ("enclave.runtime.args", "skeleton,debug")] }
  if isCgroup2UnifiedMode then
    { spec with Linux := some { linux with
        Namespaces := linux.Namespaces ++ [{ Typ := CgroupNamespace }] } }
  else
    spec

/-! ## `ToRootless` -/

/-- How a call of `ToRootless` ends, with the value `*spec` holds then:
it returns, or it panics dereferencing a nil `spec.Linux`. -/
inductive Outcome where
  | returned (spec : Spec)
  | panicked (spec : Spec)
deriving DecidableEq, Repr

/-- Go `ToRootless`, with `os.Geteuid()` and `os.Getegid()` as arguments. -/
def ToRootless (euid egid : Int) (spec : Spec) : Outcome :=
  match spec.Linux with
  | none =>
    -- `spec.Linux.Namespaces` is the first statement that touches `spec`
    Outcome.panicked spec
  | some linux =>
    -- Remove networkns from the spec.
    let namespaces : List LinuxNamespace :=
      linux.Namespaces.foldl
        (fun namespaces ns =>
          if ns.Typ = NetworkNamespace ∨ ns.Typ = UserNamespace then
            namespaces
          else
            namespaces ++ [ns])
        []
    -- Add userns to the spec.
    let namespaces := namespaces ++ [{ Typ := UserNamespace }]
    let linux := { linux with Namespaces := namespaces }
    -- Add mappings for the current user.
    let linux := { linux with
      UIDMappings := [{ HostID := uint32 euid, ContainerID := 0, Size := 1 }] }
    let linux := { linux with
      GIDMappings := [{ HostID := uint32 egid, ContainerID := 0, Size := 1 }] }
    -- Fix up mounts.
    let mounts : List Mount :=
      spec.Mounts.foldl
        (fun mounts mount =>
          -- Ignore all mounts that are under /sys.
          if HasPrefix mount.Destination "/sys" then
            mounts
          else
            -- Remove all gid= and uid= mappings.
            let options : List String :=
              mount.Options.foldl
                (fun options option =>
                  if !HasPrefix option "gid=" && !HasPrefix option "uid=" then
                    options ++ [option]
                  else
                    options)
                []
            let mount := { mount with Options := options }
            mounts ++ [mount])
        []
    -- Add the sysfs mount as an rbind.
    let mounts := mounts ++ [{
      Source := "/sys",
      Destination := "/sys",
      Typ := "none",
      Options := ["rbind", "nosuid", "noexec", "nodev", "ro"] }]
    let spec := { spec with Mounts := mounts }
    -- Remove cgroup settings.
    let linux := { linux with Resources := none }
    Outcome.returned { spec with Linux := some linux }

/-! ## Sample input used to instantiate the theorems -/

/-- A Linux section that already carries network and user namespaces,
mappings and resources. -/
def sampleLinux : Linux := {
  UIDMappings := [{ HostID := 0, ContainerID := 0, Size := 65536 }],
  GIDMappings := [
    { HostID := 0, ContainerID := 0, Size := 1 },
    { HostID := 100, ContainerID := 1, Size := 10 }],
  Resources := some { Devices := [{ Allow := true, Access := "r" }] },
  Namespaces := [
    { Typ := PIDNamespace },
    { Typ := NetworkNamespace, Path := "/var/run/netns/a" },
    { Typ := UserNamespace, Path := "/proc/1/ns/user" },
    { Typ := MountNamespace },
    { Typ := NetworkNamespace }],
  MaskedPaths := ["/proc/kcore"] }

/-- A specification with mounts under and outside `/sys` and with `uid=` and
`gid=` options, over `sampleLinux`. -/
def sampleSpec : Spec := {
  Version := "1.0.2",
  Hostname := "box",
  Mounts := [
    { Destination := "/sys/kernel", Typ := "sysfs", Source := "sysfs", Options := ["ro"] },
    { Destination := "/data", Typ := "ext4", Source := "/dev/sda1",
      Options := ["uid=1000", "rw", "gid=7", "rw", "nodev"] },
    { Destination := "/sysroot", Typ := "bind", Source := "/srv", Options := ["rbind"] },
    { Destination := "/tmp", Typ := "tmpfs", Source := "tmpfs", Options := ["gid=0"] }],
  Linux := some sampleLinux }

/-- The specification `sampleSpec` without its Linux section. -/
def sampleSpecNoLinux : Spec := { sampleSpec with Linux := none }

/-- A specification with an empty Linux section and no mounts. -/
def emptySpec : Spec := { Linux := some {} }

/-- A specification whose mount destinations are near misses of `/sys`. -/
def sysLikeSpec : Spec := {
  Mounts := [
    { Destination := "/sysroot", Typ := "bind", Source := "/a" },
    { Destination := "sys", Typ := "bind", Source := "/b" },
    { Destination := "/system/data", Typ := "bind", Source := "/c" },
    { Destination := "/Sys", Typ := "bind", Source := "/d" },
    { Destination := "/var/sys", Typ := "bind", Source := "/e" },
    { Destination := "/sys", Typ := "sysfs", Source := "sysfs" }],
  Linux := some {} }

/-- A Linux section with one namespace entry per type, network included. -/
def privilegedLinux : Linux := {
  Namespaces := [
    { Typ := PIDNamespace },
    { Typ := NetworkNamespace },
    { Typ := MountNamespace }] }

/-- A specification over `privilegedLinux`. -/
def privilegedSpec : Spec := { Hostname := "box", Linux := some privilegedLinux }

/-! ## Loops as filters -/

/-- A loop that skips the elements satisfying `c` and appends `g x` for the
others computes a filter followed by a map. -/
theorem foldl_skip_append {α β : Type} (c : α → Prop) [DecidablePred c] (g : α → β)
    (l : List α) (init : List β) :
    l.foldl (fun acc x => if c x then acc else acc ++ [g x]) init
      = init ++ (l.filter (fun x => decide (¬ c x))).map g := by
  induction l generalizing init with
  | nil => simp
  | cons x xs ih =>
    by_cases hx : c x
    · simp [List.foldl_cons, hx, ih]
    · simp [List.foldl_cons, hx, ih]

/-- A loop that appends the elements satisfying `p` computes a filter. -/
theorem foldl_append_if {α : Type} (p : α → Bool) (l : List α) (init : List α) :
    l.foldl (fun acc x => if p x = true then acc ++ [x] else acc) init
      = init ++ l.filter p := by
  induction l generalizing init with
  | nil => simp
  | cons x xs ih =>
    by_cases hx : p x = true
    · simp [List.foldl_cons, hx, ih]
    · simp [List.foldl_cons, hx, ih]

/-- Filtering again what a filter kept, with one appended element that the
filter rejects, gives back what the filter kept. -/
theorem filter_filter_append_rejected {α : Type} (p : α → Bool) (l : List α) (a : α)
    (ha : p a = false) :
    (l.filter p ++ [a]).filter p = l.filter p := by
  simp [List.filter_append, ha, List.filter_filter]

/-- The same for a filter followed by a map `g` that is idempotent and does not
change what the filter tests. -/
theorem map_filter_map_filter_append_rejected {α : Type} (p : α → Bool) (g : α → α)
    (l : List α) (a : α) (hp : ∀ x, p (g x) = p x) (hg : ∀ x, g (g x) = g x)
    (ha : p a = false) :
    (((l.filter p).map g ++ [a]).filter p).map g = (l.filter p).map g := by
  have hkeep : ((l.filter p).map g).filter p = (l.filter p).map g := by
    rw [List.filter_eq_self]
    intro x hx
    obtain ⟨y, hy, rfl⟩ := List.mem_map.mp hx
    rw [hp]
    exact (List.mem_filter.mp hy).2
  rw [List.filter_append, hkeep]
  simp [ha, hg]

/-- Closed form of `ToRootless` on a specification with a Linux section. -/
theorem ToRootless_some (euid egid : Int) (S : Spec) (l : Linux) (h : S.Linux = some l) :
    ToRootless euid egid S = Outcome.returned { S with
      Mounts :=
        (S.Mounts.filter (fun m => decide (¬ HasPrefix m.Destination "/sys" = true))).map
          (fun m => { m with
            Options := m.Options.filter (fun o => !HasPrefix o "gid=" && !HasPrefix o "uid=") })
        ++ [{ Source := "/sys", Destination := "/sys", Typ := "none",
              Options := ["rbind", "nosuid", "noexec", "nodev", "ro"] }],
      Linux := some { l with
        Namespaces :=
          l.Namespaces.filter
            (fun ns => decide (¬ (ns.Typ = NetworkNamespace ∨ ns.Typ = UserNamespace)))
          ++ [{ Typ := UserNamespace }],
        UIDMappings := [{ HostID := uint32 euid, ContainerID := 0, Size := 1 }],
        GIDMappings := [{ HostID := uint32 egid, ContainerID := 0, Size := 1 }],
        Resources := none } } := by
  have hns : ∀ ns : List LinuxNamespace,
      ns.foldl (fun namespaces ns =>
          if ns.Typ = NetworkNamespace ∨ ns.Typ = UserNamespace then namespaces
          else namespaces ++ [ns]) []
        = ns.filter (fun ns =>
            decide (¬ (ns.Typ = NetworkNamespace ∨ ns.Typ = UserNamespace))) := by
    intro ns
    have := foldl_skip_append (fun ns : LinuxNamespace =>
      ns.Typ = NetworkNamespace ∨ ns.Typ = UserNamespace) id ns []
    simpa using this
  have hms : ∀ ms : List Mount,
      ms.foldl (fun mounts mount =>
          if HasPrefix mount.Destination "/sys" = true then mounts
          else mounts ++ [{ mount with
            Options := mount.Options.filter
              (fun o => !HasPrefix o "gid=" && !HasPrefix o "uid=") }]) []
        = (ms.filter (fun m => decide (¬ HasPrefix m.Destination "/sys" = true))).map
            (fun m => { m with
              Options := m.Options.filter
                (fun o => !HasPrefix o "gid=" && !HasPrefix o "uid=") }) := by
    intro ms
    have := foldl_skip_append (fun m : Mount => HasPrefix m.Destination "/sys" = true)
      (fun m => { m with
        Options := m.Options.filter
          (fun o => !HasPrefix o "gid=" && !HasPrefix o "uid=") }) ms []
    simpa using this
  unfold ToRootless
  rw [h]
  simp only [foldl_append_if, List.nil_append]
  rw [hns, hms]

/-! ## Namespace rewrite -/

/-- C1: for every specification with a Linux section and every effective
UID/GID, `ToRootless` returns, and the namespace list of the result is the
input namespace list without its entries of type network or user (the others
unchanged, in their original order), followed by one appended entry of type
user. -/
theorem ToRootless_namespaces (euid egid : Int) (S : Spec) (l : Linux)
    (h : S.Linux = some l) :
    ∃ R lr, ToRootless euid egid S = Outcome.returned R ∧ R.Linux = some lr ∧
      lr.Namespaces =
        l.Namespaces.filter
          (fun ns => decide (ns.Typ ≠ NetworkNamespace ∧ ns.Typ ≠ UserNamespace))
        ++ [{ Typ := UserNamespace, Path := "" }] := by
  refine ⟨_, _, ToRootless_some euid egid S l h, rfl, ?_⟩
  simp only [not_or]

/-- Instance of C1 at `sampleSpec`: the two network entries and the user entry
with a path are gone, pid and mount stay in order, a fresh user entry ends the
list. -/
theorem ToRootless_namespaces_witness :
    sampleSpec.Linux = some sampleLinux ∧
    ∃ R lr, ToRootless 1000 1000 sampleSpec = Outcome.returned R ∧ R.Linux = some lr ∧
      lr.Namespaces =
        [{ Typ := "pid", Path := "" }, { Typ := "mount", Path := "" },
         { Typ := "user", Path := "" }] := by
  refine ⟨rfl, ?_⟩
  obtain ⟨R, lr, h1, h2, h3⟩ := ToRootless_namespaces 1000 1000 sampleSpec sampleLinux rfl
  exact ⟨R, lr, h1, h2, h3.trans (by decide)⟩

/-- C2: for every specification with a Linux section, `ToRootless` returns a
result with no namespace entry of type network and exactly one namespace entry
of type user. -/
theorem ToRootless_no_network_one_user (euid egid : Int) (S : Spec)
    (h : S.Linux ≠ none) :
    ∃ R lr, ToRootless euid egid S = Outcome.returned R ∧ R.Linux = some lr ∧
      (∀ ns ∈ lr.Namespaces, ns.Typ ≠ NetworkNamespace) ∧
      lr.Namespaces.countP (fun ns => decide (ns.Typ = UserNamespace)) = 1 := by
  obtain ⟨l, hl⟩ := Option.ne_none_iff_exists'.mp h
  refine ⟨_, _, ToRootless_some euid egid S l hl, rfl, ?_, ?_⟩
  · intro ns hns
    simp only [List.mem_append, List.mem_filter, List.mem_singleton] at hns
    rcases hns with ⟨_, hk⟩ | rfl
    · intro hn
      simp [hn] at hk
    · decide
  · simp only [List.countP_append]
    have h0 : List.countP (fun ns : LinuxNamespace => decide (ns.Typ = UserNamespace))
        (l.Namespaces.filter (fun ns =>
          decide (¬ (ns.Typ = NetworkNamespace ∨ ns.Typ = UserNamespace)))) = 0 := by
      rw [List.countP_eq_zero]
      intro ns hns
      simp only [List.mem_filter] at hns
      have hk := hns.2
      simp only [decide_eq_true_eq, not_or] at hk ⊢
      exact hk.2
    rw [h0]
    decide

/-- Instance of C2 at the specification produced by `Example`. -/
theorem ToRootless_no_network_one_user_witness :
    (Example "1.0.2" true).Linux ≠ none ∧
    ∃ R lr, ToRootless 1000 1000 (Example "1.0.2" true) = Outcome.returned R ∧
      R.Linux = some lr ∧
      (∀ ns ∈ lr.Namespaces, ns.Typ ≠ NetworkNamespace) ∧
      lr.Namespaces.countP (fun ns => decide (ns.Typ = UserNamespace)) = 1 :=
  ⟨by decide, ToRootless_no_network_one_user 1000 1000 (Example "1.0.2" true) (by decide)⟩

/-! ## Mount filtering and rewriting -/

/-- C3: for every specification with a Linux section, `ToRootless` returns,
and the mount list of the result is: the input mounts whose destination does
not start with "/sys", in their original order, each with destination, type
and source unchanged and with the options that start with neither "uid=" nor
"gid="; followed by the one mount with source "/sys", destination "/sys",
type "none" and options rbind, nosuid, noexec, nodev, ro. -/
theorem ToRootless_mounts (euid egid : Int) (S : Spec) (h : S.Linux ≠ none) :
    ∃ R, ToRootless euid egid S = Outcome.returned R ∧
      R.Mounts =
        (S.Mounts.filter (fun m => !HasPrefix m.Destination "/sys")).map
          (fun m => {
            Destination := m.Destination,
            Typ := m.Typ,
            Source := m.Source,
            Options := m.Options.filter
              (fun o => !HasPrefix o "uid=" && !HasPrefix o "gid=") })
        ++ [{ Source := "/sys", Destination := "/sys", Typ := "none",
              Options := ["rbind", "nosuid", "noexec", "nodev", "ro"] }] := by
  obtain ⟨l, hl⟩ := Option.ne_none_iff_exists'.mp h
  refine ⟨_, ToRootless_some euid egid S l hl, ?_⟩
  simp only [Bool.and_comm, Bool.not_eq_true, Bool.decide_eq_false]

/-- Instance of C3 at `sampleSpec`: `/sys/kernel` and `/sysroot` are dropped,
`/data` and `/tmp` lose their `uid=` and `gid=` options, the rbind of `/sys`
is last. -/
theorem ToRootless_mounts_witness :
    sampleSpec.Linux ≠ none ∧
    ∃ R, ToRootless 1000 1000 sampleSpec = Outcome.returned R ∧
      R.Mounts =
        [{ Destination := "/data", Typ := "ext4", Source := "/dev/sda1",
           Options := ["rw", "rw", "nodev"] },
         { Destination := "/tmp", Typ := "tmpfs", Source := "tmpfs", Options := [] },
         { Destination := "/sys", Typ := "none", Source := "/sys",
           Options := ["rbind", "nosuid", "noexec", "nodev", "ro"] }] := by
  refine ⟨by decide, ?_⟩
  obtain ⟨R, h1, h2⟩ := ToRootless_mounts 1000 1000 sampleSpec (by decide)
  exact ⟨R, h1, h2.trans (by decide)⟩

/-! ## Identity mappings and resources -/

/-- C4: for every specification with a Linux section and every effective UID
`u` and GID `g` below `2^32`, `ToRootless` returns, the UID mapping list of the
result is the single entry (host `u`, container 0, size 1) and the GID mapping
list is the single entry (host `g`, container 0, size 1), whatever mappings
the input carried. -/
theorem ToRootless_id_mappings (u g : Nat) (S : Spec)
    (hu : u < 4294967296) (hg : g < 4294967296) (h : S.Linux ≠ none) :
    ∃ R lr, ToRootless (u : Int) (g : Int) S = Outcome.returned R ∧ R.Linux = some lr ∧
      lr.UIDMappings = [{ HostID := u, ContainerID := 0, Size := 1 }] ∧
      lr.GIDMappings = [{ HostID := g, ContainerID := 0, Size := 1 }] := by
  obtain ⟨l, hl⟩ := Option.ne_none_iff_exists'.mp h
  have hcast : ∀ n : Nat, n < 4294967296 → uint32 (n : Int) = n := by
    intro n hn
    unfold uint32
    omega
  refine ⟨_, _, ToRootless_some u g S l hl, rfl, ?_, ?_⟩
  · simp only [hcast u hu]
  · simp only [hcast g hg]

/-- Instance of C4 at `sampleSpec`, whose Linux section already has one UID
mapping and two GID mappings. -/
theorem ToRootless_id_mappings_witness :
    (1000 < 4294967296 ∧ 100 < 4294967296 ∧ sampleSpec.Linux ≠ none) ∧
    ∃ R lr, ToRootless ((1000 : Nat) : Int) ((100 : Nat) : Int) sampleSpec
        = Outcome.returned R ∧ R.Linux = some lr ∧
      lr.UIDMappings = [{ HostID := 1000, ContainerID := 0, Size := 1 }] ∧
      lr.GIDMappings = [{ HostID := 100, ContainerID := 0, Size := 1 }] :=
  ⟨⟨by decide, by decide, by decide⟩,
    ToRootless_id_mappings 1000 100 sampleSpec (by decide) (by decide) (by decide)⟩

/-- C8: for every specification with a Linux section, `ToRootless` returns and
the resource descriptor of the result is absent (nil), whatever resources the
input carried. -/
theorem ToRootless_resources_nil (euid egid : Int) (S : Spec) (h : S.Linux ≠ none) :
    ∃ R lr, ToRootless euid egid S = Outcome.returned R ∧ R.Linux = some lr ∧
      lr.Resources = none := by
  obtain ⟨l, hl⟩ := Option.ne_none_iff_exists'.mp h
  exact ⟨_, _, ToRootless_some euid egid S l hl, rfl, rfl⟩

/-- Instance of C8 at `sampleSpec`, whose Linux section has a device rule. -/
theorem ToRootless_resources_nil_witness :
    sampleSpec.Linux ≠ none ∧
    ∃ R lr, ToRootless 1000 1000 sampleSpec = Outcome.returned R ∧ R.Linux = some lr ∧
      lr.Resources = none :=
  ⟨by decide, ToRootless_resources_nil 1000 1000 sampleSpec (by decide)⟩

/-! ## Idempotence -/

/-- C5: for every specification with a Linux section and fixed effective
UID/GID, `ToRootless` returns a result `R`, and `ToRootless` applied to `R`
returns `R` again: the two results are equal as whole specifications. -/
theorem ToRootless_idempotent (euid egid : Int) (S : Spec) (h : S.Linux ≠ none) :
    ∃ R, ToRootless euid egid S = Outcome.returned R ∧
      ToRootless euid egid R = Outcome.returned R := by
  obtain ⟨l, hl⟩ := Option.ne_none_iff_exists'.mp h
  refine ⟨_, ToRootless_some euid egid S l hl, ?_⟩
  rw [ToRootless_some euid egid _ _ rfl]
  simp only [Outcome.returned.injEq, Spec.mk.injEq, Option.some.injEq, Linux.mk.injEq,
    true_and, and_true]
  constructor
  · exact congrArg
      (· ++ [({ Source := "/sys", Destination := "/sys", Typ := "none",
                Options := ["rbind", "nosuid", "noexec", "nodev", "ro"] } : Mount)])
      (map_filter_map_filter_append_rejected
        (fun m : Mount => decide (¬ HasPrefix m.Destination "/sys" = true))
        (fun m => { m with
          Options := m.Options.filter (fun o => !HasPrefix o "gid=" && !HasPrefix o "uid=") })
        S.Mounts
        { Source := "/sys", Destination := "/sys", Typ := "none",
          Options := ["rbind", "nosuid", "noexec", "nodev", "ro"] }
        (fun _ => rfl) (fun m => by simp [List.filter_filter]) (by decide))
  · exact congrArg (· ++ [({ Typ := UserNamespace } : LinuxNamespace)])
      (filter_filter_append_rejected
        (fun ns : LinuxNamespace =>
          decide (¬ (ns.Typ = NetworkNamespace ∨ ns.Typ = UserNamespace)))
        l.Namespaces { Typ := UserNamespace } (by decide))

/-- Instance of C5 at `sampleSpec`. -/
theorem ToRootless_idempotent_witness :
    sampleSpec.Linux ≠ none ∧
    ∃ R, ToRootless 1000 1000 sampleSpec = Outcome.returned R ∧
      ToRootless 1000 1000 R = Outcome.returned R :=
  ⟨by decide, ToRootless_idempotent 1000 1000 sampleSpec (by decide)⟩

/-! ## The `/sys` mount and option scrubbing -/

/-- C6: for every specification with a Linux section, `ToRootless` returns; in
the mount list of the result the last mount is the appended rbind of `/sys`,
and a mount has a destination starting with "/sys" exactly when it is at the
last position. -/
theorem ToRootless_sys_only_last (euid egid : Int) (S : Spec) (h : S.Linux ≠ none) :
    ∃ R, ToRootless euid egid S = Outcome.returned R ∧
      R.Mounts.getLast? =
        some { Source := "/sys", Destination := "/sys", Typ := "none",
               Options := ["rbind", "nosuid", "noexec", "nodev", "ro"] } ∧
      ∀ (i : Nat) (hi : i < R.Mounts.length),
        (HasPrefix (R.Mounts.get ⟨i, hi⟩).Destination "/sys" = true
          ↔ i + 1 = R.Mounts.length) := by
  obtain ⟨l, hl⟩ := Option.ne_none_iff_exists'.mp h
  refine ⟨_, ToRootless_some euid egid S l hl, ?_, ?_⟩
  · simp
  · intro i hi
    simp only [List.length_append, List.length_singleton] at hi ⊢
    simp only [List.get_eq_getElem]
    by_cases hlt : i < ((S.Mounts.filter
        (fun m => decide (¬ HasPrefix m.Destination "/sys" = true))).map
          (fun m : Mount => { m with
            Options := m.Options.filter
              (fun o => !HasPrefix o "gid=" && !HasPrefix o "uid=") })).length
    · rw [List.getElem_append_left hlt]
      have hmem := List.getElem_mem hlt
      obtain ⟨m, hm, hmeq⟩ := List.mem_map.mp hmem
      have hk := (List.mem_filter.mp hm).2
      simp only [decide_eq_true_eq] at hk
      rw [← hmeq]
      constructor
      · intro hp
        exact absurd hp hk
      · intro he
        omega
    · have hle := Nat.le_of_not_lt hlt
      rw [List.getElem_append_right hle]
      simp only [List.getElem_singleton]
      constructor
      · intro _
        omega
      · intro _
        decide

/-- Instance of C6 at the specification produced by `Example`. -/
theorem ToRootless_sys_only_last_witness :
    (Example "1.0.2" false).Linux ≠ none ∧
    ∃ R, ToRootless 1000 1000 (Example "1.0.2" false) = Outcome.returned R ∧
      R.Mounts.getLast? =
        some { Source := "/sys", Destination := "/sys", Typ := "none",
               Options := ["rbind", "nosuid", "noexec", "nodev", "ro"] } ∧
      ∀ (i : Nat) (hi : i < R.Mounts.length),
        (HasPrefix (R.Mounts.get ⟨i, hi⟩).Destination "/sys" = true
          ↔ i + 1 = R.Mounts.length) :=
  ⟨by decide, ToRootless_sys_only_last 1000 1000 (Example "1.0.2" false) (by decide)⟩

/-- C7: for every specification with a Linux section, `ToRootless` returns; no
mount of the result has an option starting with "uid=" or "gid="; and the
mounts of the result before the appended one pair off, in order, with the
input mounts whose destination does not start with "/sys", each output option
list being a sublist of the input one (relative order kept) in which every
option starting with neither "uid=" nor "gid=" occurs as often as in the
input. -/
theorem ToRootless_options_scrubbed (euid egid : Int) (S : Spec) (h : S.Linux ≠ none) :
    ∃ R, ToRootless euid egid S = Outcome.returned R ∧
      (∀ m ∈ R.Mounts, ∀ o ∈ m.Options,
        HasPrefix o "uid=" = false ∧ HasPrefix o "gid=" = false) ∧
      List.Forall₂
        (fun (min mout : Mount) =>
          mout.Destination = min.Destination ∧
          mout.Options.Sublist min.Options ∧
          ∀ o, HasPrefix o "uid=" = false → HasPrefix o "gid=" = false →
            mout.Options.count o = min.Options.count o)
        (S.Mounts.filter (fun m => !HasPrefix m.Destination "/sys"))
        R.Mounts.dropLast := by
  obtain ⟨l, hl⟩ := Option.ne_none_iff_exists'.mp h
  refine ⟨_, ToRootless_some euid egid S l hl, ?_, ?_⟩
  · intro m hm o ho
    simp only [List.mem_append, List.mem_map, List.mem_singleton] at hm
    rcases hm with ⟨m0, _, rfl⟩ | rfl
    · have hk := (List.mem_filter.mp ho).2
      simp only [Bool.and_eq_true, Bool.not_eq_true'] at hk
      exact ⟨hk.2, hk.1⟩
    · revert o
      decide
  · simp only [List.dropLast_concat, Bool.not_eq_true, Bool.decide_eq_false]
    rw [List.forall₂_map_right_iff, List.forall₂_same]
    intro m _
    refine ⟨rfl, List.filter_sublist _, ?_⟩
    intro o hu hg
    exact List.count_filter (by simp [hu, hg])

/-- Instance of C7 at `sampleSpec`, whose `/data` mount has the options
uid=1000, rw, gid=7, rw, nodev. -/
theorem ToRootless_options_scrubbed_witness :
    sampleSpec.Linux ≠ none ∧
    ∃ R, ToRootless 1000 1000 sampleSpec = Outcome.returned R ∧
      (∀ m ∈ R.Mounts, ∀ o ∈ m.Options,
        HasPrefix o "uid=" = false ∧ HasPrefix o "gid=" = false) ∧
      List.Forall₂
        (fun (min mout : Mount) =>
          mout.Destination = min.Destination ∧
          mout.Options.Sublist min.Options ∧
          ∀ o, HasPrefix o "uid=" = false → HasPrefix o "gid=" = false →
            mout.Options.count o = min.Options.count o)
        (sampleSpec.Mounts.filter (fun m => !HasPrefix m.Destination "/sys"))
        R.Mounts.dropLast :=
  ⟨by decide, ToRootless_options_scrubbed 1000 1000 sampleSpec (by decide)⟩

/-! ## `Example` and the concrete scenario -/

/-- C9: for the baseline returned by `Example`, with either value `b` of the
unified-mode probe, and effective UID/GID 1000/1000, `ToRootless` returns a
result with namespaces pid, ipc, uts, mount, then cgroup iff `b`, then user;
UID mapping [(1000, 0, 1)]; GID mapping [(1000, 0, 1)]; no resources; and the
seven mounts /proc, /dev, /dev/pts (without gid=5), /dev/shm, /dev/mqueue,
/var/run/aesmd and the trailing rbind of /sys, the two baseline mounts under
/sys being gone. -/
theorem ToRootless_Example_scenario (version : String) (b : Bool) :
    ∃ R lr, ToRootless 1000 1000 (Example version b) = Outcome.returned R ∧
      R.Linux = some lr ∧
      lr.Namespaces =
        [{ Typ := PIDNamespace }, { Typ := IPCNamespace }, { Typ := UTSNamespace },
         { Typ := MountNamespace }]
        ++ (if b then [{ Typ := CgroupNamespace }] else [])
        ++ [{ Typ := UserNamespace }] ∧
      lr.UIDMappings = [{ HostID := 1000, ContainerID := 0, Size := 1 }] ∧
      lr.GIDMappings = [{ HostID := 1000, ContainerID := 0, Size := 1 }] ∧
      lr.Resources = none ∧
      R.Mounts.map (fun m => m.Destination) =
        ["/proc", "/dev", "/dev/pts", "/dev/shm", "/dev/mqueue", "/var/run/aesmd", "/sys"] ∧
      R.Mounts =
        [{ Destination := "/proc", Typ := "proc", Source := "proc", Options := [] },
         { Destination := "/dev", Typ := "tmpfs", Source := "tmpfs",
           Options := ["nosuid", "strictatime", "mode=755", "size=65536k"] },
         { Destination := "/dev/pts", Typ := "devpts", Source := "devpts",
           Options := ["nosuid", "noexec", "newinstance", "ptmxmode=0666", "mode=0620"] },
         { Destination := "/dev/shm", Typ := "tmpfs", Source := "shm",
           Options := ["nosuid", "noexec", "nodev", "mode=1777", "size=65536k"] },
         { Destination := "/dev/mqueue", Typ := "mqueue", Source := "mqueue",
           Options := ["nosuid", "noexec", "nodev"] },
         { Destination := "/var/run/aesmd", Typ := "bind", Source := "/var/run/aesmd",
           Options := ["rbind", "rprivate"] },
         { Destination := "/sys", Typ := "none", Source := "/sys",
           Options := ["rbind", "nosuid", "noexec", "nodev", "ro"] }] := by
  cases b
  · exact ⟨_, _, rfl, rfl, rfl, rfl, rfl, rfl, rfl, rfl⟩
  · exact ⟨_, _, rfl, rfl, rfl, rfl, rfl, rfl, rfl, rfl⟩

/-- C10: for every value `b` of the unified-mode probe, the namespace list of
`Example` is [pid, ipc, uts, mount] when `b` is false and [pid, ipc, uts,
mount, cgroup] when `b` is true; it has a cgroup entry iff `b` is true, and no
two of its entries have the same type. -/
theorem Example_namespaces (version : String) (b : Bool) :
    ∃ l, (Example version b).Linux = some l ∧
      l.Namespaces =
        (if b then
          [{ Typ := PIDNamespace }, { Typ := IPCNamespace }, { Typ := UTSNamespace },
           { Typ := MountNamespace }, { Typ := CgroupNamespace }]
        else
          [{ Typ := PIDNamespace }, { Typ := IPCNamespace }, { Typ := UTSNamespace },
           { Typ := MountNamespace }]) ∧
      ((∃ ns ∈ l.Namespaces, ns.Typ = CgroupNamespace) ↔ b = true) ∧
      (l.Namespaces.map (fun ns => ns.Typ)).Nodup := by
  cases b
  · exact ⟨_, rfl, rfl, by decide, by decide⟩
  · exact ⟨_, rfl, rfl, by decide, by decide⟩

/-- C11, as stated, fails: the namespace list of `Example` (probe false) has no
entry of type network, so it is not true that it has a network entry and no
user entry. -/
theorem Example_has_network_refuted :
    ∃ l, (Example "1.0.2" false).Linux = some l ∧
      l.Namespaces.map (fun ns => ns.Typ) = ["pid", "ipc", "uts", "mount"] ∧
      ¬ ((∃ ns ∈ l.Namespaces, ns.Typ = NetworkNamespace) ∧
         (∀ ns ∈ l.Namespaces, ns.Typ ≠ UserNamespace)) :=
  ⟨_, rfl, by decide, by decide⟩

/-- C11, amended: for either probe value, the namespace list of `Example`
contains no entry of type network and no entry of type user. -/
theorem Example_no_network_no_user (version : String) (b : Bool) :
    ∃ l, (Example version b).Linux = some l ∧
      (∀ ns ∈ l.Namespaces, ns.Typ ≠ NetworkNamespace) ∧
      (∀ ns ∈ l.Namespaces, ns.Typ ≠ UserNamespace) := by
  cases b
  · exact ⟨_, rfl, by decide, by decide⟩
  · exact ⟨_, rfl, by decide, by decide⟩

/-- C12: in every specification returned by `Example` each of the five
capability lists (bounding, permitted, inheritable, ambient, effective) is
[CAP_AUDIT_WRITE, CAP_KILL, CAP_NET_BIND_SERVICE], so they are pairwise
equal; and `ToRootless` returns a specification whose process section, with
its five capability lists, is the same. -/
theorem Example_capabilities (version : String) (b : Bool) (euid egid : Int) :
    ∃ p c, (Example version b).Process = some p ∧ p.Capabilities = some c ∧
      c.Bounding = ["CAP_AUDIT_WRITE", "CAP_KILL", "CAP_NET_BIND_SERVICE"] ∧
      c.Permitted = c.Bounding ∧
      c.Inheritable = c.Bounding ∧
      c.Ambient = c.Bounding ∧
      c.Effective = c.Bounding ∧
      ∃ R, ToRootless euid egid (Example version b) = Outcome.returned R ∧
        R.Process = some p := by
  cases b
  · exact ⟨_, _, rfl, rfl, rfl, rfl, rfl, rfl, rfl, _, rfl, rfl⟩
  · exact ⟨_, _, rfl, rfl, rfl, rfl, rfl, rfl, rfl, _, rfl, rfl⟩

/-- C13: the mount list of `Example` has eight entries with (destination,
type) pairs, in order, (/proc, proc), (/dev, tmpfs), (/dev/pts, devpts),
(/dev/shm, tmpfs), (/dev/mqueue, mqueue), (/sys, sysfs), (/sys/fs/cgroup,
cgroup), (/var/run/aesmd, bind); the destinations starting with "/sys" are
exactly the sixth and the seventh; the last entry has source /var/run/aesmd
and options [rbind, rprivate]. -/
theorem Example_mounts (version : String) (b : Bool) :
    (Example version b).Mounts.length = 8 ∧
    (Example version b).Mounts.map (fun m => (m.Destination, m.Typ)) =
      [("/proc", "proc"), ("/dev", "tmpfs"), ("/dev/pts", "devpts"), ("/dev/shm", "tmpfs"),
       ("/dev/mqueue", "mqueue"), ("/sys", "sysfs"), ("/sys/fs/cgroup", "cgroup"),
       ("/var/run/aesmd", "bind")] ∧
    (Example version b).Mounts.map (fun m => HasPrefix m.Destination "/sys") =
      [false, false, false, false, false, true, true, false] ∧
    (Example version b).Mounts.getLast? =
      some { Destination := "/var/run/aesmd", Typ := "bind", Source := "/var/run/aesmd",
             Options := ["rbind", "rprivate"] } := by
  cases b
  · exact ⟨rfl, rfl, rfl, rfl⟩
  · exact ⟨rfl, rfl, rfl, rfl⟩

/-- C17: the masked-path list of `Example` has ten entries, all distinct; its
members are exactly /proc/acpi, /proc/asound, /proc/kcore, /proc/keys,
/proc/latency_stats, /proc/timer_list, /proc/timer_stats, /proc/sched_debug,
/proc/scsi and /sys/firmware; nine of them are under /proc and one is under
/sys. -/
theorem Example_masked_paths (version : String) (b : Bool) :
    ∃ l, (Example version b).Linux = some l ∧
      l.MaskedPaths.length = 10 ∧
      l.MaskedPaths.Nodup ∧
      (∀ p, p ∈ l.MaskedPaths ↔
        p ∈ ["/proc/acpi", "/proc/asound", "/proc/kcore", "/proc/keys",
             "/proc/latency_stats", "/proc/timer_list", "/proc/timer_stats",
             "/proc/sched_debug", "/proc/scsi", "/sys/firmware"]) ∧
      l.MaskedPaths.countP (fun p => HasPrefix p "/proc/") = 9 ∧
      l.MaskedPaths.countP (fun p => HasPrefix p "/sys/") = 1 := by
  cases b
  · refine ⟨_, rfl, rfl, by decide, ?_, by decide, by decide⟩
    intro p
    simp only [List.mem_cons, List.mem_singleton, List.not_mem_nil, or_false]
    tauto
  · refine ⟨_, rfl, rfl, by decide, ?_, by decide, by decide⟩
    intro p
    simp only [List.mem_cons, List.mem_singleton, List.not_mem_nil, or_false]
    tauto

/-! ## Invariants, failure and frame -/

/-- C14: the specification returned by `Example` has no UID and no GID
mappings, and in the result of `ToRootless` on any specification with a Linux
section the namespace list has an entry of type user; so in both, whenever the
UID or GID mapping list is non-empty the namespace list has a user entry. -/
theorem mappings_imply_user_namespace (version : String) (b : Bool) (euid egid : Int)
    (S : Spec) (h : S.Linux ≠ none) :
    (∃ l, (Example version b).Linux = some l ∧
      l.UIDMappings = [] ∧ l.GIDMappings = [] ∧
      ((l.UIDMappings ≠ [] ∨ l.GIDMappings ≠ []) →
        ∃ ns ∈ l.Namespaces, ns.Typ = UserNamespace)) ∧
    (∃ R lr, ToRootless euid egid S = Outcome.returned R ∧ R.Linux = some lr ∧
      (∃ ns ∈ lr.Namespaces, ns.Typ = UserNamespace) ∧
      ((lr.UIDMappings ≠ [] ∨ lr.GIDMappings ≠ []) →
        ∃ ns ∈ lr.Namespaces, ns.Typ = UserNamespace)) := by
  constructor
  · cases b
    · exact ⟨_, rfl, rfl, rfl, fun hne => absurd rfl (hne.elim id id)⟩
    · exact ⟨_, rfl, rfl, rfl, fun hne => absurd rfl (hne.elim id id)⟩
  · obtain ⟨l, hl⟩ := Option.ne_none_iff_exists'.mp h
    have huser : ∃ ns ∈ l.Namespaces.filter
        (fun ns => decide (¬ (ns.Typ = NetworkNamespace ∨ ns.Typ = UserNamespace)))
          ++ [({ Typ := UserNamespace } : LinuxNamespace)], ns.Typ = UserNamespace :=
      ⟨{ Typ := UserNamespace }, by simp, rfl⟩
    exact ⟨_, _, ToRootless_some euid egid S l hl, rfl, huser, fun _ => huser⟩

/-- Instance of C14 at `sampleSpec`. -/
theorem mappings_imply_user_namespace_witness :
    sampleSpec.Linux ≠ none ∧
    (∃ l, (Example "1.0.2" true).Linux = some l ∧
      l.UIDMappings = [] ∧ l.GIDMappings = [] ∧
      ((l.UIDMappings ≠ [] ∨ l.GIDMappings ≠ []) →
        ∃ ns ∈ l.Namespaces, ns.Typ = UserNamespace)) ∧
    (∃ R lr, ToRootless 1000 1000 sampleSpec = Outcome.returned R ∧ R.Linux = some lr ∧
      (∃ ns ∈ lr.Namespaces, ns.Typ = UserNamespace) ∧
      ((lr.UIDMappings ≠ [] ∨ lr.GIDMappings ≠ []) →
        ∃ ns ∈ lr.Namespaces, ns.Typ = UserNamespace)) :=
  ⟨by decide, mappings_imply_user_namespace "1.0.2" true 1000 1000 sampleSpec (by decide)⟩

/-- C15: for every specification with a Linux section whose namespace list has
at most one entry per type, `ToRootless` returns a result whose namespace list
has at most one entry per type; and this holds for `ToRootless` of `Example`
with either probe value. -/
theorem ToRootless_namespaces_nodup (euid egid : Int) (S : Spec) (l : Linux)
    (h : S.Linux = some l) (hn : (l.Namespaces.map (fun ns => ns.Typ)).Nodup) :
    (∃ R lr, ToRootless euid egid S = Outcome.returned R ∧ R.Linux = some lr ∧
      (lr.Namespaces.map (fun ns => ns.Typ)).Nodup) ∧
    (∀ (version : String) (b : Bool),
      ∃ R lr, ToRootless euid egid (Example version b) = Outcome.returned R ∧
        R.Linux = some lr ∧ (lr.Namespaces.map (fun ns => ns.Typ)).Nodup) := by
  constructor
  · refine ⟨_, _, ToRootless_some euid egid S l h, rfl, ?_⟩
    simp only [List.map_append, List.map_cons, List.map_nil]
    rw [List.nodup_append]
    refine ⟨hn.sublist ((List.filter_sublist _).map _), List.nodup_singleton _, ?_⟩
    intro t ht hu
    obtain ⟨ns, hns, rfl⟩ := List.mem_map.mp ht
    have hk := (List.mem_filter.mp hns).2
    simp only [decide_eq_true_eq, not_or] at hk
    simp only [List.mem_singleton] at hu
    exact hk.2 hu
  · intro version b
    cases b
    · refine ⟨_, _, rfl, rfl, ?_⟩
      change List.Nodup ["pid", "ipc", "uts", "mount", "user"]
      decide
    · refine ⟨_, _, rfl, rfl, ?_⟩
      change List.Nodup ["pid", "ipc", "uts", "mount", "cgroup", "user"]
      decide

/-- Instance of C15 at `privilegedSpec`, with namespaces pid, network, mount. -/
theorem ToRootless_namespaces_nodup_witness :
    (privilegedSpec.Linux = some privilegedLinux ∧
      (privilegedLinux.Namespaces.map (fun ns => ns.Typ)).Nodup) ∧
    (∃ R lr, ToRootless 1000 1000 privilegedSpec = Outcome.returned R ∧ R.Linux = some lr ∧
      (lr.Namespaces.map (fun ns => ns.Typ)).Nodup) ∧
    (∀ (version : String) (b : Bool),
      ∃ R lr, ToRootless 1000 1000 (Example version b) = Outcome.returned R ∧
        R.Linux = some lr ∧ (lr.Namespaces.map (fun ns => ns.Typ)).Nodup) :=
  ⟨⟨rfl, by decide⟩,
    ToRootless_namespaces_nodup 1000 1000 privilegedSpec privilegedLinux rfl (by decide)⟩

/-- C16: on a specification whose Linux section is absent (nil), `ToRootless`
does not return a converted specification: it panics, and the specification
is then exactly the input, so mounts, root, process, hostname and annotations
are unchanged. -/
theorem ToRootless_nil_linux_panics (euid egid : Int) (S : Spec) (h : S.Linux = none) :
    (∀ R, ToRootless euid egid S ≠ Outcome.returned R) ∧
    ∃ S1, ToRootless euid egid S = Outcome.panicked S1 ∧
      S1.Mounts = S.Mounts ∧ S1.Root = S.Root ∧ S1.Process = S.Process ∧
      S1.Hostname = S.Hostname ∧ S1.Annotations = S.Annotations ∧ S1 = S := by
  have hp : ToRootless euid egid S = Outcome.panicked S := by
    unfold ToRootless
    rw [h]
  refine ⟨?_, S, hp, rfl, rfl, rfl, rfl, rfl, rfl⟩
  intro R hR
  rw [hp] at hR
  exact Outcome.noConfusion hR

/-- Instance of C16 at `sampleSpecNoLinux`, which has four mounts. -/
theorem ToRootless_nil_linux_panics_witness :
    sampleSpecNoLinux.Linux = none ∧
    (∀ R, ToRootless 1000 1000 sampleSpecNoLinux ≠ Outcome.returned R) ∧
    ∃ S1, ToRootless 1000 1000 sampleSpecNoLinux = Outcome.panicked S1 ∧
      S1.Mounts = sampleSpecNoLinux.Mounts ∧ S1.Root = sampleSpecNoLinux.Root ∧
      S1.Process = sampleSpecNoLinux.Process ∧
      S1.Hostname = sampleSpecNoLinux.Hostname ∧
      S1.Annotations = sampleSpecNoLinux.Annotations ∧ S1 = sampleSpecNoLinux :=
  ⟨rfl, ToRootless_nil_linux_panics 1000 1000 sampleSpecNoLinux rfl⟩

/-- C18: for every specification with a Linux section, `ToRootless` returns a
result whose namespace list and mount list are both non-empty; when the input
namespace list and mount list are both empty, the namespace list of the result
is the single user entry and its mount list is the single rbind of `/sys`. -/
theorem ToRootless_degenerate (euid egid : Int) (S : Spec) (l : Linux)
    (h : S.Linux = some l) :
    ∃ R lr, ToRootless euid egid S = Outcome.returned R ∧ R.Linux = some lr ∧
      lr.Namespaces ≠ [] ∧ R.Mounts ≠ [] ∧
      (l.Namespaces = [] ∧ S.Mounts = [] →
        lr.Namespaces = [{ Typ := UserNamespace, Path := "" }] ∧
        R.Mounts = [{ Source := "/sys", Destination := "/sys", Typ := "none",
                      Options := ["rbind", "nosuid", "noexec", "nodev", "ro"] }]) := by
  refine ⟨_, _, ToRootless_some euid egid S l h, rfl, ?_, ?_, ?_⟩
  · simp
  · simp
  · rintro ⟨hns, hms⟩
    simp [hns, hms]

/-- Instance of C18 at `emptySpec`: no namespaces and no mounts go in, one user
namespace and one mount come out. -/
theorem ToRootless_degenerate_witness :
    (emptySpec.Linux = some {} ∧
      ({} : Linux).Namespaces = [] ∧ emptySpec.Mounts = []) ∧
    ∃ R lr, ToRootless 1000 1000 emptySpec = Outcome.returned R ∧ R.Linux = some lr ∧
      lr.Namespaces = [{ Typ := "user", Path := "" }] ∧
      R.Mounts = [{ Source := "/sys", Destination := "/sys", Typ := "none",
                    Options := ["rbind", "nosuid", "noexec", "nodev", "ro"] }] := by
  refine ⟨⟨rfl, rfl, rfl⟩, ?_⟩
  obtain ⟨R, lr, h1, h2, _, _, h5⟩ := ToRootless_degenerate 1000 1000 emptySpec {} rfl
  exact ⟨R, lr, h1, h2, h5 ⟨rfl, rfl⟩⟩

/-- C19: for every specification with a Linux section, `ToRootless` returns a
result whose version, root, process (hence args, env, cwd, no-new-privileges,
terminal, rlimits and the five capability lists), hostname, annotations,
masked-path list and read-only-path list equal those of the input; only the
mount list and, in the Linux section, the namespace list, the UID/GID mapping
lists and the resource descriptor are written. -/
theorem ToRootless_frame (euid egid : Int) (S : Spec) (l : Linux)
    (h : S.Linux = some l) :
    ∃ R lr, ToRootless euid egid S = Outcome.returned R ∧ R.Linux = some lr ∧
      R.Version = S.Version ∧ R.Root = S.Root ∧ R.Process = S.Process ∧
      R.Hostname = S.Hostname ∧ R.Annotations = S.Annotations ∧
      lr.MaskedPaths = l.MaskedPaths ∧ lr.ReadonlyPaths = l.ReadonlyPaths ∧
      R = { S with
        Mounts := R.Mounts,
        Linux := some { l with
          Namespaces := lr.Namespaces,
          UIDMappings := lr.UIDMappings,
          GIDMappings := lr.GIDMappings,
          Resources := lr.Resources } } :=
  ⟨_, _, ToRootless_some euid egid S l h, rfl, rfl, rfl, rfl, rfl, rfl, rfl, rfl, rfl⟩

/-- Instance of C19 at `sampleSpec`. -/
theorem ToRootless_frame_witness :
    sampleSpec.Linux = some sampleLinux ∧
    ∃ R lr, ToRootless 1000 1000 sampleSpec = Outcome.returned R ∧ R.Linux = some lr ∧
      R.Version = sampleSpec.Version ∧ R.Root = sampleSpec.Root ∧
      R.Process = sampleSpec.Process ∧
      R.Hostname = sampleSpec.Hostname ∧ R.Annotations = sampleSpec.Annotations ∧
      lr.MaskedPaths = sampleLinux.MaskedPaths ∧
      lr.ReadonlyPaths = sampleLinux.ReadonlyPaths ∧
      R = { sampleSpec with
        Mounts := R.Mounts,
        Linux := some { sampleLinux with
          Namespaces := lr.Namespaces,
          UIDMappings := lr.UIDMappings,
          GIDMappings := lr.GIDMappings,
          Resources := lr.Resources } } :=
  ⟨rfl, ToRootless_frame 1000 1000 sampleSpec sampleLinux rfl⟩

/-- C20: for every specification with a Linux section, `ToRootless` returns,
and the destinations of the result mounts before the appended one are the
input destinations that do not have the string prefix "/sys", in order: a
mount is dropped exactly when its destination has that raw prefix. The
destinations "/sysroot" and "/system/data" have the prefix; "sys", "/Sys" and
"/var/sys" do not. -/
theorem ToRootless_drops_raw_sys (euid egid : Int) (S : Spec) (h : S.Linux ≠ none) :
    ∃ R, ToRootless euid egid S = Outcome.returned R ∧
      R.Mounts.dropLast.map (fun m => m.Destination) =
        (S.Mounts.map (fun m => m.Destination)).filter (fun d => !HasPrefix d "/sys") ∧
      HasPrefix "/sysroot" "/sys" = true ∧
      HasPrefix "/system/data" "/sys" = true ∧
      HasPrefix "sys" "/sys" = false ∧
      HasPrefix "/Sys" "/sys" = false ∧
      HasPrefix "/var/sys" "/sys" = false := by
  obtain ⟨l, hl⟩ := Option.ne_none_iff_exists'.mp h
  refine ⟨_, ToRootless_some euid egid S l hl, ?_, by decide, by decide, by decide,
    by decide, by decide⟩
  simp only [List.dropLast_concat, List.map_map, List.filter_map]
  congr 2
  funext m
  simp

/-- Instance of C20 at `sysLikeSpec`: of the destinations /sysroot, sys,
/system/data, /Sys, /var/sys and /sys, only sys, /Sys and /var/sys are kept. -/
theorem ToRootless_drops_raw_sys_witness :
    sysLikeSpec.Linux ≠ none ∧
    ∃ R, ToRootless 1000 1000 sysLikeSpec = Outcome.returned R ∧
      R.Mounts.dropLast.map (fun m => m.Destination) = ["sys", "/Sys", "/var/sys"] := by
  refine ⟨by decide, ?_⟩
  obtain ⟨R, h1, h2, _⟩ := ToRootless_drops_raw_sys 1000 1000 sysLikeSpec (by decide)
  exact ⟨R, h1, h2.trans (by decide)⟩

end Specconv
